import Mathlib

/-!
Verification of `epicam` (`src/main.py`), a PyQt5 + PySpin surgery-camera
acquisition GUI, against its natural-language specification.

The shallow embedding below translates the state of `CameraApp` (cached
parameter ranges, slider widgets, device nodes, labels, the displayed pixmap)
into a Lean structure, and each method (`update_exposure`, `update_gain`,
`update_framerate`, `cache_exposure_range`, `cache_gain_range`,
`start_preview`, `copy_to_clipboard`, `rotate_and_copy_to_clipboard`,
`closeEvent`, `disable_controls`) into a pure state transformer.  Qt widget
semantics that the code relies on (`QSlider.setValue` bounding into the range,
`QSlider.setRange` re-bounding the current value, `QSize.scaled` with
`KeepAspectRatio`) are embedded from Qt's documented integer algorithms.
-/

namespace Epicam

/-- A raster image: a single-channel byte buffer of `width * height` samples in
row-major order.  This is the shape delivered by `image_result.GetNDArray()`
(grayscale, `Format_Grayscale8`) in `start_preview`. -/
structure Img where
  width : Nat
  height : Nat
  data : List Nat
  deriving Repr, DecidableEq

/-- The 180-degree rotation of a raster image, as performed by
`pixmap.transformed(... .rotate(180))` in `rotate_and_copy_to_clipboard`.
Rotating a `w * h` row-major single-channel buffer by 180 degrees sends the
sample at `(x, y)` to `(w-1-x, h-1-y)`, which is exactly reversal of the flat
buffer; width and height are unchanged. -/
def rotate180 (img : Img) : Img :=
  { img with data := img.data.reverse }

/-- Embeds `QSize::scaled` with `Qt.KeepAspectRatio`, Qt's integer algorithm: given a
source size `(w, h)` and a target `(tw, th)`, compute `rw = th * w / h`
(integer division); if `rw <= tw` the result is `(rw, th)`, otherwise
`(tw, tw * h / w)`.  When a source dimension is zero Qt returns the target
unchanged.  This is the scaling used by `pixmap.scaled(...)` at the preview
(`start_preview`) and export (`copy_to_clipboard`) sites. -/
def scaledKeepAspect (w h tw th : Nat) : Nat × Nat :=
  if w = 0 ∨ h = 0 then (tw, th)
  else
    let rw := th * w / h
    if rw ≤ tw then (rw, th) else (tw, tw * h / w)

/-- Nearest-neighbour sample lookup on the flat buffer (out-of-range reads
yield 0). -/
def sampleAt (img : Img) (x y : Nat) : Nat :=
  img.data.getD (y * img.width + x) 0

/-- Deterministic resampling of an image to the `Qt.KeepAspectRatio`-scaled
size.  Qt's `SmoothTransformation` resampler is likewise a deterministic pure
function of the source pixels and the two sizes; the concrete filter kernel is
irrelevant to every claim below, so a nearest-neighbour kernel stands in for
it. -/
def scaleKeepAspect (img : Img) (tw th : Nat) : Img :=
  let dims := scaledKeepAspect img.width img.height tw th
  { width := dims.1
    height := dims.2
    data := (List.range (dims.1 * dims.2)).map fun i =>
      sampleAt img (i % dims.1 * img.width / dims.1)
        (i / dims.1 * img.height / dims.2) }

/-- The fixed preview display region: `image_label.setFixedSize(int(2048/2),
int(1536/2))`, i.e. 1024 x 768. -/
def displayW : Nat := 1024

/-- Height of the fixed preview display region. -/
def displayH : Nat := 768

/-- The frame-to-DisplayImage conversion performed by each cycle of
`start_preview`: wrap the raw grayscale buffer as an image and scale it to the
fixed display region with `Qt.KeepAspectRatio`.  It depends only on the frame,
never on a previously seen geometry. -/
def convert (frame : Img) : Img :=
  scaleKeepAspect frame displayW displayH

example : scaledKeepAspect 2048 1536 1024 768 = (1024, 768) := by decide
example : scaledKeepAspect 100 50 1024 768 = (1024, 512) := by decide
example : scaledKeepAspect 50 100 1024 768 = (384, 768) := by decide
example : scaledKeepAspect 641 483 1024 768 = (1019, 768) := by decide

/-- The error kinds of the specification's error model. -/
inductive ErrorKind where
  | DeviceNotFound
  | DeviceOpenFailed
  | DeviceReadFailed
  | DeviceWriteFailed
  | IncompleteFrame
  | NoImageAvailable
  deriving Repr, DecidableEq

/-- Qt's `qBound(min, val, max)` clamp, used by `QSlider.setValue` to bound a
requested slider value into the slider's range. -/
def qBound (lo v hi : Int) : Int := max lo (min hi v)

/-- The state of the `CameraApp` window together with the device-node
environment it talks to through PySpin.  Device nodes are snapshots of what
the hardware currently reports: a range of `none` models a node that is
unavailable or unreadable; `dev_writes` counts every write issued to a device
node, so "no device contact" is expressible. -/
structure CameraApp where
  /-- `self.camera is not None` (a handle was taken from the list). -/
  camera : Bool
  /-- `self.has_camera`: handle taken and `Init()` plus initial setup succeeded. -/
  has_camera : Bool
  /-- Cached exposure minimum, µs (`self.min_exposure`, default 1000). -/
  min_exposure : Int
  /-- Cached exposure maximum, µs (`self.max_exposure`, default 100000). -/
  max_exposure : Int
  /-- Cached gain minimum, dB (`self.min_gain`, default 0). -/
  min_gain : Int
  /-- Cached gain maximum, dB (`self.max_gain`, default 47). -/
  max_gain : Int
  exposure_slider_min : Int
  exposure_slider_max : Int
  exposure_slider_value : Int
  exposure_slider_enabled : Bool
  gain_slider_min : Int
  gain_slider_max : Int
  gain_slider_value : Int
  gain_slider_enabled : Bool
  /-- `int(self.framerate_combo.currentText())`. -/
  framerate_combo_value : Int
  framerate_combo_enabled : Bool
  buttons_enabled : Bool
  exposure_label : String
  gain_label : String
  framerate_label : String
  /-- `self.image_label.pixmap()`: the latest published DisplayImage, if any. -/
  image_pixmap : Option Img
  warning_displayed : Bool
  preview_active : Bool
  preview_started : Bool
  /-- Device `ExposureTime` node min/max; `none` = unavailable or unreadable. -/
  dev_exposure_range : Option (Int × Int)
  /-- Device `Gain` node min/max; `none` = unavailable or unreadable. -/
  dev_gain_range : Option (Int × Int)
  dev_exposure_writable : Bool
  dev_gain_writable : Bool
  dev_framerate_writable : Bool
  dev_exposure_auto_writable : Bool
  dev_gain_auto_writable : Bool
  dev_framerate_auto_writable : Bool
  dev_exposure_auto : Bool
  dev_gain_auto : Bool
  dev_framerate_auto : Bool
  dev_exposure_value : Int
  dev_gain_value : Int
  dev_framerate_value : Int
  /-- Count of writes issued to any device node. -/
  dev_writes : Nat
  /-- Count of calls to `cache_exposure_range`. -/
  cache_exposure_calls : Nat
  /-- Messages surfaced through `show_error`, oldest first. -/
  errors : List String
  deriving Repr, DecidableEq

/-- Model of `show_error`: append a user-visible error message. -/
def show_error (s : CameraApp) (msg : String) : CameraApp :=
  { s with errors := s.errors ++ [msg] }

/-- Two-decimal rendering of a value given in hundredths, mirroring Python's
`:.2f` format on the nonnegative values that arise here. -/
def twoDecimals (hundredths : Int) : String :=
  let r := hundredths % 100
  toString (hundredths / 100) ++ "." ++ (if r < 10 then "0" else "") ++ toString r

/-- Label text `f"Exposure: {actual_exposure/1000:.2f} ms"` for an integral µs value. -/
def exposureLabelText (v : Int) : String :=
  "Exposure: " ++ twoDecimals (v / 10) ++ " ms"

/-- Label text `f"Gain: {actual_gain:.2f} dB"` for an integral dB value. -/
def gainLabelText (v : Int) : String :=
  "Gain: " ++ twoDecimals (v * 100) ++ " dB"

/-- Qt's `QSlider.setValue` on the exposure slider: Qt bounds the requested value
into the slider's current range. -/
def exposureSliderSetValue (s : CameraApp) (v : Int) : CameraApp :=
  { s with exposure_slider_value := qBound s.exposure_slider_min v s.exposure_slider_max }

/-- Qt's `QSlider.setValue` on the gain slider. -/
def gainSliderSetValue (s : CameraApp) (v : Int) : CameraApp :=
  { s with gain_slider_value := qBound s.gain_slider_min v s.gain_slider_max }

/-- Qt's `QSlider.setRange(lo, hi)` on the exposure slider: Qt sets
`minimum := lo`, `maximum := max lo hi`, and re-bounds the current value into
the new range. -/
def exposureSliderSetRange (s : CameraApp) (lo hi : Int) : CameraApp :=
  { s with exposure_slider_min := lo
           exposure_slider_max := max lo hi
           exposure_slider_value := qBound lo s.exposure_slider_value (max lo hi) }

/-- Embeds `CameraApp.cache_exposure_range`: bump the call counter; if
`self.has_camera` is false, return at once; otherwise read the device
`ExposureTime` node and, only when it is available and readable, overwrite the
cached min/max with what it reports. -/
def cache_exposure_range (s : CameraApp) : CameraApp :=
  let s := { s with cache_exposure_calls := s.cache_exposure_calls + 1 }
  if s.has_camera = false then s
  else
    match s.dev_exposure_range with
    | some r => { s with min_exposure := r.1, max_exposure := r.2 }
    | none => s

/-- Embeds `CameraApp.cache_gain_range`: if `self.has_camera` is false, return at
once; otherwise read the device `Gain` node and, only when it is available
and readable, overwrite the cached min/max with what it reports. -/
def cache_gain_range (s : CameraApp) : CameraApp :=
  if s.has_camera = false then s
  else
    match s.dev_gain_range with
    | some r => { s with min_gain := r.1, max_gain := r.2 }
    | none => s

/-- Embeds `CameraApp.update_exposure`: if a camera handle exists, first force
`ExposureAuto` off when that node is writable, then, if the `ExposureTime`
node is writable, write the slider's value to the device, read the actual
value back and refresh the label; otherwise surface an error. -/
def update_exposure (s : CameraApp) : CameraApp :=
  if s.camera = false then s
  else
    let s1 := if s.dev_exposure_auto_writable then
        { s with dev_exposure_auto := false, dev_writes := s.dev_writes + 1 }
      else s
    if s1.dev_exposure_writable then
      let v := s1.exposure_slider_value
      { s1 with dev_exposure_value := v
                dev_writes := s1.dev_writes + 1
                exposure_label := exposureLabelText v }
    else show_error s1 "Exposure setting is not writable."

/-- Embeds `CameraApp.update_gain`: same shape as `update_exposure` for the `Gain`
node. -/
def update_gain (s : CameraApp) : CameraApp :=
  if s.camera = false then s
  else
    let s1 := if s.dev_gain_auto_writable then
        { s with dev_gain_auto := false, dev_writes := s.dev_writes + 1 }
      else s
    if s1.dev_gain_writable then
      let v := s1.gain_slider_value
      { s1 with dev_gain_value := v
                dev_writes := s1.dev_writes + 1
                gain_label := gainLabelText v }
    else show_error s1 "Gain setting is not writable."

/-- Embeds `CameraApp.set_camera_framerate`: with no camera handle the attribute
access raises and the exception handler surfaces the error; otherwise force
`AcquisitionFrameRateAuto` off when writable, then write the requested frame
rate to the `AcquisitionFrameRate` node when writable, else surface an
error. -/
def set_camera_framerate (s : CameraApp) (framerate : Int) : CameraApp :=
  if s.camera = false then
    show_error s "Error setting frame rate: no camera handle"
  else
    let s1 := if s.dev_framerate_auto_writable then
        { s with dev_framerate_auto := false, dev_writes := s.dev_writes + 1 }
      else s
    if s1.dev_framerate_writable then
      { s1 with dev_framerate_value := framerate, dev_writes := s1.dev_writes + 1 }
    else show_error s1 "Frame rate setting is not writable or not available."

/-- Embeds `CameraApp.update_framerate`: read the selected frame rate from the
combo box, push it to the camera, refresh the cached exposure range exactly
once, re-apply the cached range to the exposure slider (Qt's `setRange`
re-bounds the current value, and when that changes the value the connected
`valueChanged` slot runs `update_exposure`), and update the label. -/
def update_framerate (s : CameraApp) : CameraApp :=
  let framerate := s.framerate_combo_value
  let s1 := set_camera_framerate s framerate
  let s2 := cache_exposure_range s1
  let s3 := exposureSliderSetRange s2 s2.min_exposure s2.max_exposure
  let s4 := if s3.exposure_slider_value = s2.exposure_slider_value then s3
    else update_exposure s3
  { s4 with framerate_label := "Framerate: " ++ toString framerate ++ " Hz" }

/-- Embeds `CameraApp.disable_controls`: disable the two sliders, the frame-rate
combo box and every push button. -/
def disable_controls (s : CameraApp) : CameraApp :=
  { s with exposure_slider_enabled := false
           gain_slider_enabled := false
           framerate_combo_enabled := false
           buttons_enabled := false }

/-- What the hardware environment reports at startup: the node ranges and
writability seen by the app.  `none` ranges model unavailable/unreadable
nodes. -/
structure Device where
  exposure_range : Option (Int × Int)
  gain_range : Option (Int × Int)
  exposure_writable : Bool
  gain_writable : Bool
  framerate_writable : Bool
  exposure_auto_writable : Bool
  gain_auto_writable : Bool
  framerate_auto_writable : Bool
  deriving Repr, DecidableEq

/-- The state right at the top of `CameraApp.__init__`, before any camera is
probed: the hard-coded default ranges, the widget values `init_ui` will
install, no pixmap, no errors, device nodes as the environment `d` reports
them. -/
def initState (d : Device) : CameraApp :=
  { camera := false
    has_camera := false
    min_exposure := 1000
    max_exposure := 100000
    min_gain := 0
    max_gain := 47
    exposure_slider_min := 1000
    exposure_slider_max := 100000
    exposure_slider_value := 85000
    exposure_slider_enabled := true
    gain_slider_min := 0
    gain_slider_max := 47
    gain_slider_value := 32
    gain_slider_enabled := true
    framerate_combo_value := 10
    framerate_combo_enabled := true
    buttons_enabled := true
    exposure_label := "Exposure: 1 ms"
    gain_label := "Gain: 10 dB"
    framerate_label := "Framerate: 10 Hz"
    image_pixmap := none
    warning_displayed := false
    preview_active := false
    preview_started := false
    dev_exposure_range := d.exposure_range
    dev_gain_range := d.gain_range
    dev_exposure_writable := d.exposure_writable
    dev_gain_writable := d.gain_writable
    dev_framerate_writable := d.framerate_writable
    dev_exposure_auto_writable := d.exposure_auto_writable
    dev_gain_auto_writable := d.gain_auto_writable
    dev_framerate_auto_writable := d.framerate_auto_writable
    dev_exposure_auto := true
    dev_gain_auto := true
    dev_framerate_auto := true
    dev_exposure_value := 0
    dev_gain_value := 0
    dev_framerate_value := 0
    dev_writes := 0
    cache_exposure_calls := 0
    errors := [] }

/-- Embeds `CameraApp.__init__` for an environment with `deviceCount` enumerated
cameras (`cam_list.GetSize()`), where `initOk` says whether taking and
initialising the first handle succeeds, and `d` describes the device's nodes.
If a camera is present: take the handle, set 10 Hz, mark `has_camera`, cache
both ranges (`initOk = false` models the `except` branch: the handle was
taken but `has_camera` stays false).  Then `init_ui` builds the widgets with
the cached ranges; with a camera the preview thread starts and
`update_exposure` / `update_gain` run once; without one the persistent
warning is shown and every control is disabled. -/
def startup (deviceCount : Nat) (initOk : Bool) (d : Device) : CameraApp :=
  let s0 := initState d
  let s1 :=
    if 0 < deviceCount then
      let sa := { s0 with camera := true }
      if initOk then
        let sb := set_camera_framerate sa 10
        let sc := { sb with has_camera := true }
        cache_gain_range (cache_exposure_range sc)
      else sa
    else s0
  let s2 := { s1 with exposure_slider_min := s1.min_exposure
                      exposure_slider_max := max s1.min_exposure s1.max_exposure
                      exposure_slider_value :=
                        qBound s1.min_exposure 85000 (max s1.min_exposure s1.max_exposure)
                      gain_slider_min := s1.min_gain
                      gain_slider_max := max s1.min_gain s1.max_gain
                      gain_slider_value :=
                        qBound s1.min_gain 32 (max s1.min_gain s1.max_gain) }
  if s2.has_camera then
    let s3 := { s2 with preview_active := true, preview_started := true }
    update_gain (update_exposure s3)
  else
    disable_controls { s2 with warning_displayed := true }

/-- A user drag/click on the exposure slider requesting value `v`.  A
disabled Qt widget receives no input, so the intent is dropped; otherwise the
slider bounds the value into its range and the `valueChanged` slot runs
`update_exposure`. -/
def on_exposure_slider_moved (s : CameraApp) (v : Int) : CameraApp :=
  if s.exposure_slider_enabled then update_exposure (exposureSliderSetValue s v)
  else s

/-- A user drag/click on the gain slider requesting value `v`. -/
def on_gain_slider_moved (s : CameraApp) (v : Int) : CameraApp :=
  if s.gain_slider_enabled then update_gain (gainSliderSetValue s v)
  else s

/-- A user selection of frame rate `fr` in the combo box; dropped when the
combo is disabled, otherwise the `currentIndexChanged` slot runs
`update_framerate` on the new selection. -/
def on_framerate_selected (s : CameraApp) (fr : Int) : CameraApp :=
  if s.framerate_combo_enabled then update_framerate { s with framerate_combo_value := fr }
  else s

/-- The outcome of one `camera.GetNextImage()` call inside the acquisition
loop of `start_preview`: an incomplete frame, a complete frame, or a raised
device exception carrying a message. -/
inductive PullResult where
  | incomplete
  | complete (frame : Img)
  | deviceError (msg : String)
  deriving Repr, DecidableEq

/-- The acquisition loop body of `start_preview`, run over a finite trace of
frame-pull outcomes (the prefix of pulls performed while `preview_active`
holds).  Returns the DisplayImages published to the label, oldest first, and
the error messages surfaced.  An incomplete result just `continue`s: nothing
is published and no error is raised; a complete frame is converted and
published; an exception leaves the loop after surfacing one error. -/
def previewRun : List PullResult → List Img × List String
  | [] => ([], [])
  | .incomplete :: rest => previewRun rest
  | .complete f :: rest =>
      let r := previewRun rest
      (convert f :: r.1, r.2)
  | .deviceError msg :: _ => ([], ["Error during preview: " ++ msg])

/-- The externally visible steps of `CameraApp.closeEvent`, in program
order. -/
inductive ShutdownStep where
  | signalPreviewStop
  | joinPreviewThread
  | endAcquisition
  | deinitCamera
  | clearCamList
  | releaseSystem
  | acceptEvent
  deriving Repr, DecidableEq

/-- Embeds `CameraApp.closeEvent` as the sequence of steps it performs: with a
camera, clear `preview_active` (the loop's cooperative stop signal), join the
preview thread when it exists and is alive, end acquisition and de-initialise
the camera; in every case clear the camera list, release the PySpin system
instance and accept the close event. -/
def closeEvent (has_cam thread_alive : Bool) : List ShutdownStep :=
  (if has_cam then
     [ShutdownStep.signalPreviewStop]
       ++ (if thread_alive then [ShutdownStep.joinPreviewThread] else [])
       ++ [ShutdownStep.endAcquisition, ShutdownStep.deinitCamera]
   else [])
    ++ [ShutdownStep.clearCamList, ShutdownStep.releaseSystem, ShutdownStep.acceptEvent]

/-- A paint colour used by the export compositors. -/
inductive PaintColor where
  | cyan
  | darkGray
  deriving Repr, DecidableEq

/-- An axis-aligned rectangle, `QRect`-style: top-left corner plus size. -/
structure Rect where
  x : Int
  y : Int
  w : Int
  h : Int
  deriving Repr, DecidableEq

/-- Qt's `QRect.adjusted(dx1, dy1, dx2, dy2)`: move the top-left corner by
`(dx1, dy1)` and the bottom-right corner by `(dx2, dy2)`. -/
def Rect.adjusted (r : Rect) (dx1 dy1 dx2 dy2 : Int) : Rect :=
  { x := r.x + dx1, y := r.y + dy1, w := r.w - dx1 + dx2, h := r.h - dy1 + dy2 }

/-- Model of `painter.boundingRect(10, 10, _, _, Qt.TextSingleLine, text)`: the tight
bounding rectangle of the single-line text anchored at (10, 10).  With
`TextSingleLine` the result depends only on the text and the (fixed bold
14 pt) font; the font metric lives inside Qt and is modelled as a fixed
per-character advance and line height. -/
def boundingRectFor (text : String) : Rect :=
  { x := 10, y := 10, w := 12 * (text.length : Int), h := 26 }

/-- The clipboard payload the export paths produce: the scaled raster the
painter drew onto, the dark-gray background rectangle, and the cyan metadata
text with its rectangle.  Byte-for-byte equality of exports is equality of
these fields. -/
structure ExportPayload where
  base : Img
  bgRect : Rect
  bgColor : PaintColor
  text : String
  textRect : Rect
  textColor : PaintColor
  deriving Repr, DecidableEq

/-- Embeds `CameraApp.copy_to_clipboard`: with no pixmap ever published, surface
"No image to copy." and produce nothing (the spec's `NoImageAvailable`).
Otherwise scale the current pixmap to 1024 x 768 keeping aspect ratio, draw a
padded dark-gray rectangle behind the text `f"{gain}, {exp_time}"` (the
frame rate is read but not used), and draw that text in cyan at the measured
rectangle. -/
def copy_to_clipboard (s : CameraApp) : Except ErrorKind ExportPayload :=
  match s.image_pixmap with
  | none => Except.error ErrorKind.NoImageAvailable
  | some pixmap =>
    let fixed_size_pixmap := scaleKeepAspect pixmap 1024 768
    let text := s.gain_label ++ ", " ++ s.exposure_label
    let text_rect := boundingRectFor text
    Except.ok
      { base := fixed_size_pixmap
        bgRect := text_rect.adjusted (-10) (-5) 10 5
        bgColor := PaintColor.darkGray
        text := text
        textRect := text_rect
        textColor := PaintColor.cyan }

/-- Embeds `CameraApp.rotate_and_copy_to_clipboard`: identical to
`copy_to_clipboard` except that the pixmap is first rotated by 180 degrees
before being scaled and annotated. -/
def rotate_and_copy_to_clipboard (s : CameraApp) : Except ErrorKind ExportPayload :=
  match s.image_pixmap with
  | none => Except.error ErrorKind.NoImageAvailable
  | some pixmap =>
    let rotated_pixmap := rotate180 pixmap
    let fixed_size_pixmap := scaleKeepAspect rotated_pixmap 1024 768
    let text := s.gain_label ++ ", " ++ s.exposure_label
    let text_rect := boundingRectFor text
    Except.ok
      { base := fixed_size_pixmap
        bgRect := text_rect.adjusted (-10) (-5) 10 5
        bgColor := PaintColor.darkGray
        text := text
        textRect := text_rect
        textColor := PaintColor.cyan }

/-- A click on either export button; a disabled button receives no input. -/
def on_clipboard_clicked (s : CameraApp) (rotate : Bool) :
    Option (Except ErrorKind ExportPayload) :=
  if s.buttons_enabled then
    some (if rotate then rotate_and_copy_to_clipboard s else copy_to_clipboard s)
  else none

/-- The device-node environment used for concrete test states: the scenario
ranges exposure `[1000, 100000]` and gain `[0, 47]`, every node writable. -/
def camDevice : Device :=
  { exposure_range := some (1000, 100000)
    gain_range := some (0, 47)
    exposure_writable := true
    gain_writable := true
    framerate_writable := true
    exposure_auto_writable := true
    gain_auto_writable := true
    framerate_auto_writable := true }

/-- The app state after a successful startup against `camDevice`. -/
def camState : CameraApp := startup 1 true camDevice

/-- The exposure-range state after the first half of `update_framerate`:
push the selected frame rate to the camera, then refresh the cached exposure
range once. -/
def refreshAfterFramerate (s : CameraApp) : CameraApp :=
  cache_exposure_range (set_camera_framerate s s.framerate_combo_value)

/-- Well-formedness of a device-reported parameter range: when the node is
readable, the reported minimum does not exceed the reported maximum (the
GenICam node contract). -/
def rangeWellFormed : Option (Int × Int) → Prop
  | some r => r.1 ≤ r.2
  | none => True

instance : (o : Option (Int × Int)) → Decidable (rangeWellFormed o)
  | some r => inferInstanceAs (Decidable (r.1 ≤ r.2))
  | none => inferInstanceAs (Decidable True)

/-! ## Helper lemmas -/

lemma lt_div_mul_add (a b : Nat) (hb : 0 < b) : a < a / b * b + b := by
  have h2 : a % b < b := Nat.mod_lt a hb
  have h3 : b * (a / b) + a % b = a := Nat.div_add_mod a b
  nlinarith [h2, h3]

/-! ## Claim theorems -/

/-- C7: the frame-to-DisplayImage conversion never stretches.  For every
frame of positive width and height, the scaled output's aspect ratio equals
the input's within rounding tolerance: the cross product of the output and
input dimensions differs by less than one rounding unit (strictly less than
`max width height`).  The conversion is a total function of the frame alone,
so it is deterministic and self-contained under geometry changes. -/
theorem convert_preserves_aspect (fr : Img)
    (hw : 0 < fr.width) (hh : 0 < fr.height) :
    |((convert fr).width * fr.height - fr.width * (convert fr).height : Int)| <
      ((max fr.width fr.height : Nat) : Int) := by
  obtain ⟨w, h, d⟩ := fr
  have hw1 : 0 < w := hw
  have hh1 : 0 < h := hh
  have hw0 : ¬ (w = 0 ∨ h = 0) := by omega
  simp only [convert, scaleKeepAspect, scaledKeepAspect, displayW, displayH]
  rw [if_neg hw0]
  have hmaxw : (w : Int) ≤ ((max w h : Nat) : Int) := by
    exact_mod_cast Nat.le_max_left w h
  have hmaxh : (h : Int) ≤ ((max w h : Nat) : Int) := by
    exact_mod_cast Nat.le_max_right w h
  have hhI : (0 : Int) < (h : Int) := by exact_mod_cast hh1
  have hwI : (0 : Int) < (w : Int) := by exact_mod_cast hw1
  split
  case isTrue hle =>
    have h1 : 768 * w / h * h ≤ 768 * w := Nat.div_mul_le_self _ _
    have h2 : 768 * w < 768 * w / h * h + h := lt_div_mul_add (768 * w) h hh1
    have h1' : ((768 * w / h * h : Nat) : Int) ≤ ((768 * w : Nat) : Int) := by
      exact_mod_cast h1
    have h2' : ((768 * w : Nat) : Int) < ((768 * w / h * h : Nat) : Int) + h := by
      exact_mod_cast h2
    push_cast at h1' h2' hmaxw hmaxh ⊢
    rw [abs_sub_lt_iff]
    constructor <;> linarith
  case isFalse hgt =>
    have h1 : 1024 * h / w * w ≤ 1024 * h := Nat.div_mul_le_self _ _
    have h2 : 1024 * h < 1024 * h / w * w + w := lt_div_mul_add (1024 * h) w hw1
    have h1' : ((1024 * h / w * w : Nat) : Int) ≤ ((1024 * h : Nat) : Int) := by
      exact_mod_cast h1
    have h2' : ((1024 * h : Nat) : Int) < ((1024 * h / w * w : Nat) : Int) + w := by
      exact_mod_cast h2
    push_cast at h1' h2' hmaxw hmaxh ⊢
    rw [abs_sub_lt_iff]
    constructor <;> linarith

/-- C7 witness: a concrete odd, non-square frame (7 x 5): the scaled output
(1024 x 731) has the input's aspect ratio within rounding tolerance. -/
theorem convert_preserves_aspect_witness :
    |((convert ⟨7, 5, []⟩).width * 5 - 7 * (convert ⟨7, 5, []⟩).height : Int)| <
      ((max 7 5 : Nat) : Int) :=
  convert_preserves_aspect ⟨7, 5, []⟩ (by decide) (by decide)

/-- C8: the 180-degree rotation used by `rotate_and_copy_to_clipboard` is an
involution: rotating any image twice yields the unrotated original. -/
theorem rotate180_involution (img : Img) : rotate180 (rotate180 img) = img := by
  cases img
  simp [rotate180]

/-- C9: the export composition is a deterministic pure transform of its
inputs.  Both export paths read only the published pixmap and the gain and
exposure label texts (the rotate flag is the choice of path): any two states
agreeing on those three produce byte-identical payloads, whatever their
device handles, frame rate, or any other field — in particular no hardware
state can influence the composition. -/
theorem export_pure_function_of_inputs (s1 s2 : CameraApp)
    (hpix : s1.image_pixmap = s2.image_pixmap)
    (hgain : s1.gain_label = s2.gain_label)
    (hexp : s1.exposure_label = s2.exposure_label) :
    copy_to_clipboard s1 = copy_to_clipboard s2 ∧
    rotate_and_copy_to_clipboard s1 = rotate_and_copy_to_clipboard s2 := by
  unfold copy_to_clipboard rotate_and_copy_to_clipboard
  rw [hpix, hgain, hexp]
  exact ⟨rfl, rfl⟩

/-- C9 witness: two concrete states sharing pixmap and labels but differing
in frame-rate selection, device write count and error log produce identical
export payloads on both paths. -/
theorem export_pure_function_of_inputs_witness :
    copy_to_clipboard
        { camState with image_pixmap := some ⟨4, 3, [0, 1, 2, 3, 4, 5, 6, 7, 8, 9, 10, 11]⟩ } =
      copy_to_clipboard
        { camState with image_pixmap := some ⟨4, 3, [0, 1, 2, 3, 4, 5, 6, 7, 8, 9, 10, 11]⟩
                        framerate_combo_value := 1
                        framerate_label := "Framerate: 1 Hz"
                        dev_writes := 99
                        errors := ["noise"] } ∧
    rotate_and_copy_to_clipboard
        { camState with image_pixmap := some ⟨4, 3, [0, 1, 2, 3, 4, 5, 6, 7, 8, 9, 10, 11]⟩ } =
      rotate_and_copy_to_clipboard
        { camState with image_pixmap := some ⟨4, 3, [0, 1, 2, 3, 4, 5, 6, 7, 8, 9, 10, 11]⟩
                        framerate_combo_value := 1
                        framerate_label := "Framerate: 1 Hz"
                        dev_writes := 99
                        errors := ["noise"] } :=
  export_pure_function_of_inputs _ _ rfl rfl rfl

/-- C10: the rotated export path equals the plain export path run on the
180-degree-rotated image: apart from the initial rotation, both scale to
1024 x 768 preserving aspect ratio and render the same
gain-then-exposure label (frame rate omitted) with the same padding,
background, colours and anchor. -/
theorem rotate_path_refines_plain_path (s : CameraApp) :
    rotate_and_copy_to_clipboard s =
      copy_to_clipboard { s with image_pixmap := s.image_pixmap.map rotate180 } := by
  rcases hp : s.image_pixmap with _ | p <;>
    simp [rotate_and_copy_to_clipboard, copy_to_clipboard, hp]

/-- C3: during a run of the acquisition loop, every `IncompleteFrame` pull
outcome is retried silently — nothing is published and no error is
surfaced — and a trace of `n` incomplete pulls followed by one successful
pull publishes exactly one DisplayImage. -/
theorem incomplete_retried_silently (n : Nat) (f : Img) :
    previewRun (List.replicate n PullResult.incomplete ++ [PullResult.complete f]) =
      ([convert f], []) := by
  induction n with
  | zero => rfl
  | succ n ih => simpa [List.replicate_succ, previewRun] using ih

/-- C4: shutdown is strictly ordered.  With a camera and a live preview
thread, `closeEvent` performs exactly: signal the loop to stop, join the
thread (so any in-flight blocking pull has returned), end acquisition,
de-initialise the camera session, release the enumeration list and system
handle, accept the event; the de-initialisation step never precedes the
join.  Without a live thread there is no in-flight pull and the join is
skipped. -/
theorem shutdown_strict_order :
    closeEvent true true =
      [ShutdownStep.signalPreviewStop, ShutdownStep.joinPreviewThread,
       ShutdownStep.endAcquisition, ShutdownStep.deinitCamera,
       ShutdownStep.clearCamList, ShutdownStep.releaseSystem,
       ShutdownStep.acceptEvent] ∧
    closeEvent true false =
      [ShutdownStep.signalPreviewStop,
       ShutdownStep.endAcquisition, ShutdownStep.deinitCamera,
       ShutdownStep.clearCamList, ShutdownStep.releaseSystem,
       ShutdownStep.acceptEvent] := by
  exact ⟨rfl, rfl⟩

/-- C5: with no device present at startup (`deviceCount = 0`), the system
enters Degraded Mode: the persistent warning is shown, no camera handle is
held, the preview loop is never started, every parameter control and button
is disabled, an export request fails with `NoImageAvailable`, and every
slider, combo or button intent is dropped without any state change — in
particular without a single device write. -/
theorem degraded_mode_no_device (b : Bool) (d : Device) :
    (startup 0 b d).warning_displayed = true ∧
    (startup 0 b d).camera = false ∧
    (startup 0 b d).has_camera = false ∧
    (startup 0 b d).preview_started = false ∧
    (startup 0 b d).preview_active = false ∧
    (startup 0 b d).exposure_slider_enabled = false ∧
    (startup 0 b d).gain_slider_enabled = false ∧
    (startup 0 b d).framerate_combo_enabled = false ∧
    (startup 0 b d).buttons_enabled = false ∧
    copy_to_clipboard (startup 0 b d) = Except.error ErrorKind.NoImageAvailable ∧
    (∀ v, on_exposure_slider_moved (startup 0 b d) v = startup 0 b d) ∧
    (∀ v, on_gain_slider_moved (startup 0 b d) v = startup 0 b d) ∧
    (∀ fr, on_framerate_selected (startup 0 b d) fr = startup 0 b d) ∧
    (∀ r, on_clipboard_clicked (startup 0 b d) r = none) ∧
    (startup 0 b d).dev_writes = 0 := by
  refine ⟨rfl, rfl, rfl, rfl, rfl, rfl, rfl, rfl, rfl, rfl,
    fun v => rfl, fun v => rfl, fun fr => rfl, fun r => rfl, rfl⟩

/-- C1: applying an out-of-range exposure or gain request writes the clamped
boundary to the device, not the raw request.  A request enters through the
slider, whose range is kept equal to the cached `[min, max]`; Qt bounds the
requested value into that range and `update_exposure` / `update_gain` write
the slider's (bounded) value to the device node.  So with a writable node,
any request below the cached minimum applies exactly the minimum and any
request above the cached maximum applies exactly the maximum. -/
theorem out_of_range_request_applies_boundary (s : CameraApp) (v : Int)
    (hcam : s.camera = true)
    (hew : s.dev_exposure_writable = true)
    (hgw : s.dev_gain_writable = true)
    (hesmin : s.exposure_slider_min = s.min_exposure)
    (hesmax : s.exposure_slider_max = s.max_exposure)
    (hgsmin : s.gain_slider_min = s.min_gain)
    (hgsmax : s.gain_slider_max = s.max_gain)
    (hee : s.min_exposure ≤ s.max_exposure)
    (hgg : s.min_gain ≤ s.max_gain) :
    (v < s.min_exposure →
      (update_exposure (exposureSliderSetValue s v)).dev_exposure_value = s.min_exposure) ∧
    (s.max_exposure < v →
      (update_exposure (exposureSliderSetValue s v)).dev_exposure_value = s.max_exposure) ∧
    (v < s.min_gain →
      (update_gain (gainSliderSetValue s v)).dev_gain_value = s.min_gain) ∧
    (s.max_gain < v →
      (update_gain (gainSliderSetValue s v)).dev_gain_value = s.max_gain) := by
  have keyE : (update_exposure (exposureSliderSetValue s v)).dev_exposure_value =
      qBound s.exposure_slider_min v s.exposure_slider_max := by
    by_cases haw : s.dev_exposure_auto_writable <;>
      simp [update_exposure, exposureSliderSetValue, hcam, hew, haw]
  have keyG : (update_gain (gainSliderSetValue s v)).dev_gain_value =
      qBound s.gain_slider_min v s.gain_slider_max := by
    by_cases haw : s.dev_gain_auto_writable <;>
      simp [update_gain, gainSliderSetValue, hcam, hgw, haw]
  rw [hesmin, hesmax] at keyE
  rw [hgsmin, hgsmax] at keyG
  refine ⟨fun hv => ?_, fun hv => ?_, fun hv => ?_, fun hv => ?_⟩
  · rw [keyE]; simp only [qBound]; omega
  · rw [keyE]; simp only [qBound]; omega
  · rw [keyG]; simp only [qBound]; omega
  · rw [keyG]; simp only [qBound]; omega

/-- C1 witness: with the cached (and device-reported) exposure range
`[1000, 100000]` after startup, requesting 500 applies 1000 and requesting
250000 applies 100000; likewise gain requests -5 and 60 against `[0, 47]`
apply 0 and 47. -/
theorem out_of_range_request_applies_boundary_witness :
    (update_exposure (exposureSliderSetValue camState 500)).dev_exposure_value = 1000 ∧
    (update_exposure (exposureSliderSetValue camState 250000)).dev_exposure_value = 100000 ∧
    (update_gain (gainSliderSetValue camState (-5))).dev_gain_value = 0 ∧
    (update_gain (gainSliderSetValue camState 60)).dev_gain_value = 47 := by
  refine ⟨?_, ?_, ?_, ?_⟩
  · exact ((out_of_range_request_applies_boundary camState 500 (by decide) (by decide)
      (by decide) (by decide) (by decide) (by decide) (by decide) (by decide)
      (by decide)).1 (by decide)).trans (by decide)
  · exact ((out_of_range_request_applies_boundary camState 250000 (by decide) (by decide)
      (by decide) (by decide) (by decide) (by decide) (by decide) (by decide)
      (by decide)).2.1 (by decide)).trans (by decide)
  · exact ((out_of_range_request_applies_boundary camState (-5) (by decide) (by decide)
      (by decide) (by decide) (by decide) (by decide) (by decide) (by decide)
      (by decide)).2.2.1 (by decide)).trans (by decide)
  · exact ((out_of_range_request_applies_boundary camState 60 (by decide) (by decide)
      (by decide) (by decide) (by decide) (by decide) (by decide) (by decide)
      (by decide)).2.2.2 (by decide)).trans (by decide)

lemma update_exposure_proj (s : CameraApp) :
    (update_exposure s).exposure_slider_value = s.exposure_slider_value ∧
    (update_exposure s).exposure_slider_min = s.exposure_slider_min ∧
    (update_exposure s).exposure_slider_max = s.exposure_slider_max ∧
    (update_exposure s).min_exposure = s.min_exposure ∧
    (update_exposure s).max_exposure = s.max_exposure ∧
    (update_exposure s).cache_exposure_calls = s.cache_exposure_calls := by
  by_cases hc : s.camera = false
  · simp [update_exposure, hc]
  · by_cases haw : s.dev_exposure_auto_writable <;>
      by_cases hw : s.dev_exposure_writable <;>
        simp [update_exposure, show_error, hc, haw, hw]

lemma set_camera_framerate_proj (s : CameraApp) (fr : Int) :
    (set_camera_framerate s fr).exposure_slider_value = s.exposure_slider_value ∧
    (set_camera_framerate s fr).min_exposure = s.min_exposure ∧
    (set_camera_framerate s fr).max_exposure = s.max_exposure ∧
    (set_camera_framerate s fr).cache_exposure_calls = s.cache_exposure_calls := by
  by_cases hc : s.camera = false
  · simp [set_camera_framerate, show_error, hc]
  · by_cases haw : s.dev_framerate_auto_writable <;>
      by_cases hw : s.dev_framerate_writable <;>
        simp [set_camera_framerate, show_error, hc, haw, hw]

lemma cache_exposure_range_proj (s : CameraApp) :
    (cache_exposure_range s).exposure_slider_value = s.exposure_slider_value ∧
    (cache_exposure_range s).cache_exposure_calls = s.cache_exposure_calls + 1 := by
  by_cases hc : s.has_camera = false <;>
    rcases hr : s.dev_exposure_range with _ | r <;>
      simp [cache_exposure_range, hc, hr]

lemma exposureSliderSetRange_proj (s : CameraApp) (lo hi : Int) :
    (exposureSliderSetRange s lo hi).min_exposure = s.min_exposure ∧
    (exposureSliderSetRange s lo hi).max_exposure = s.max_exposure ∧
    (exposureSliderSetRange s lo hi).cache_exposure_calls = s.cache_exposure_calls ∧
    (exposureSliderSetRange s lo hi).exposure_slider_min = lo ∧
    (exposureSliderSetRange s lo hi).exposure_slider_max = max lo hi ∧
    (exposureSliderSetRange s lo hi).exposure_slider_value =
      qBound lo s.exposure_slider_value (max lo hi) :=
  ⟨rfl, rfl, rfl, rfl, rfl, rfl⟩

lemma update_framerate_char (s : CameraApp) :
    (update_framerate s).min_exposure = (refreshAfterFramerate s).min_exposure ∧
    (update_framerate s).max_exposure = (refreshAfterFramerate s).max_exposure ∧
    (update_framerate s).cache_exposure_calls = s.cache_exposure_calls + 1 ∧
    (update_framerate s).exposure_slider_min = (refreshAfterFramerate s).min_exposure ∧
    (update_framerate s).exposure_slider_max =
      max (refreshAfterFramerate s).min_exposure (refreshAfterFramerate s).max_exposure ∧
    (update_framerate s).exposure_slider_value =
      qBound (refreshAfterFramerate s).min_exposure s.exposure_slider_value
        (max (refreshAfterFramerate s).min_exposure (refreshAfterFramerate s).max_exposure) := by
  obtain ⟨p1, p2, p3, p4⟩ := set_camera_framerate_proj s s.framerate_combo_value
  obtain ⟨q1, q2⟩ := cache_exposure_range_proj (set_camera_framerate s s.framerate_combo_value)
  have hdef : refreshAfterFramerate s =
      cache_exposure_range (set_camera_framerate s s.framerate_combo_value) := rfl
  rw [← hdef] at q1 q2
  rw [p1] at q1
  rw [p4] at q2
  obtain ⟨e1, e2, e3, e4, e5, e6⟩ :=
    exposureSliderSetRange_proj (refreshAfterFramerate s)
      (refreshAfterFramerate s).min_exposure (refreshAfterFramerate s).max_exposure
  unfold update_framerate
  dsimp only
  rw [← hdef]
  split
  case isTrue h =>
    exact ⟨e1, e2, e3.trans q2, e4, e5, by rw [e6, q1]⟩
  case isFalse h =>
    obtain ⟨r1, r2, r3, r4, r5, r6⟩ :=
      update_exposure_proj
        (exposureSliderSetRange (refreshAfterFramerate s)
          (refreshAfterFramerate s).min_exposure (refreshAfterFramerate s).max_exposure)
    exact ⟨r4.trans e1, r5.trans e2, (r6.trans e3).trans q2, r2.trans e4, r3.trans e5,
      by rw [r1, e6, q1]⟩

/-- C2: every frame-rate change performs exactly one exposure-range refresh
(one call to `cache_exposure_range`) and re-clamps the current exposure
setting into the newly cached `[min_exposure, max_exposure]`: afterwards the
slider's range is the refreshed cached range and its value is the previous
value bounded into that range. -/
theorem framerate_change_refreshes_and_reclamps (s : CameraApp)
    (hrange : (update_framerate s).min_exposure ≤ (update_framerate s).max_exposure) :
    (update_framerate s).cache_exposure_calls = s.cache_exposure_calls + 1 ∧
    (update_framerate s).exposure_slider_min = (update_framerate s).min_exposure ∧
    (update_framerate s).exposure_slider_max = (update_framerate s).max_exposure ∧
    (update_framerate s).exposure_slider_value =
      qBound (update_framerate s).min_exposure s.exposure_slider_value
        (update_framerate s).max_exposure := by
  obtain ⟨c1, c2, c3, c4, c5, c6⟩ := update_framerate_char s
  rw [c1, c2] at hrange
  have hmax : max (refreshAfterFramerate s).min_exposure
      (refreshAfterFramerate s).max_exposure = (refreshAfterFramerate s).max_exposure :=
    max_eq_right hrange
  refine ⟨c3, ?_, ?_, ?_⟩
  · rw [c4, c1]
  · rw [c5, hmax, c2]
  · rw [c6, hmax, c1, c2]

/-- C2 witness: after startup against the `[1000, 100000]` device, change the
device-reported exposure range to `[2000, 50000]` and select a frame rate:
`update_framerate` refreshes the cache exactly once and re-clamps the slider
value 85000 into the new range (to 50000). -/
theorem framerate_change_refreshes_and_reclamps_witness :
    (update_framerate { camState with
        dev_exposure_range := some (2000, 50000) }).cache_exposure_calls =
      { camState with dev_exposure_range := some (2000, 50000) }.cache_exposure_calls + 1 ∧
    (update_framerate { camState with
        dev_exposure_range := some (2000, 50000) }).exposure_slider_min =
      (update_framerate { camState with
        dev_exposure_range := some (2000, 50000) }).min_exposure ∧
    (update_framerate { camState with
        dev_exposure_range := some (2000, 50000) }).exposure_slider_max =
      (update_framerate { camState with
        dev_exposure_range := some (2000, 50000) }).max_exposure ∧
    (update_framerate { camState with
        dev_exposure_range := some (2000, 50000) }).exposure_slider_value =
      qBound (update_framerate { camState with
          dev_exposure_range := some (2000, 50000) }).min_exposure
        { camState with dev_exposure_range := some (2000, 50000) }.exposure_slider_value
        (update_framerate { camState with
          dev_exposure_range := some (2000, 50000) }).max_exposure :=
  framerate_change_refreshes_and_reclamps
    { camState with dev_exposure_range := some (2000, 50000) } (by decide)

/-- C6 counterexample: the cached range does NOT always satisfy
`min <= max`.  `cache_gain_range` copies whatever a readable device node
reports without validation: after startup (cache at the defaults `[0, 47]`),
a refresh against a device reporting the gain range `(5, 3)` leaves the
cache with `min_gain = 5 > 3 = max_gain`. -/
theorem gain_range_min_le_max_violated :
    ¬ ((cache_gain_range { camState with dev_gain_range := some (5, 3) }).min_gain ≤
       (cache_gain_range { camState with dev_gain_range := some (5, 3) }).max_gain) := by
  decide

/-- C6 (amended): for every range-cache refresh, if the device node is
unavailable or unreadable the cached range is left unchanged (the first-call
fallback being the hard-coded defaults, exposure `[1000, 100000]` µs and
gain `[0, 47]` dB); and provided every readable device node reports
`min <= max`, the cached range always satisfies `min <= max`. -/
theorem range_cache_retention_and_defaults (s : CameraApp)
    (hde : rangeWellFormed s.dev_exposure_range)
    (hdg : rangeWellFormed s.dev_gain_range)
    (he : s.min_exposure ≤ s.max_exposure)
    (hg : s.min_gain ≤ s.max_gain) :
    (s.dev_exposure_range = none →
      (cache_exposure_range s).min_exposure = s.min_exposure ∧
      (cache_exposure_range s).max_exposure = s.max_exposure) ∧
    (s.dev_gain_range = none →
      (cache_gain_range s).min_gain = s.min_gain ∧
      (cache_gain_range s).max_gain = s.max_gain) ∧
    (cache_exposure_range s).min_exposure ≤ (cache_exposure_range s).max_exposure ∧
    (cache_gain_range s).min_gain ≤ (cache_gain_range s).max_gain ∧
    (∀ d : Device,
      (initState d).min_exposure = 1000 ∧ (initState d).max_exposure = 100000 ∧
      (initState d).min_gain = 0 ∧ (initState d).max_gain = 47) := by
  refine ⟨?_, ?_, ?_, ?_, fun d => ⟨rfl, rfl, rfl, rfl⟩⟩
  · intro hn
    by_cases hc : s.has_camera = false <;> simp [cache_exposure_range, hc, hn]
  · intro hn
    by_cases hc : s.has_camera = false <;> simp [cache_gain_range, hc, hn]
  · by_cases hc : s.has_camera = false
    · simpa [cache_exposure_range, hc] using he
    · rcases hr : s.dev_exposure_range with _ | r
      · simpa [cache_exposure_range, hc, hr] using he
      · have hwf : r.1 ≤ r.2 := by rw [hr] at hde; exact hde
        simpa [cache_exposure_range, hc, hr] using hwf
  · by_cases hc : s.has_camera = false
    · simpa [cache_gain_range, hc] using hg
    · rcases hr : s.dev_gain_range with _ | r
      · simpa [cache_gain_range, hc, hr] using hg
      · have hwf : r.1 ≤ r.2 := by rw [hr] at hdg; exact hdg
        simpa [cache_gain_range, hc, hr] using hwf

/-- C6 (amended) witness: after startup, with both device nodes turned
unreadable, a refresh of each cache leaves the cached ranges unchanged and
the `min <= max` invariant holds. -/
theorem range_cache_retention_and_defaults_witness :
    ({ camState with dev_exposure_range := none, dev_gain_range := none }.dev_exposure_range
        = none →
      (cache_exposure_range
          { camState with dev_exposure_range := none, dev_gain_range := none }).min_exposure =
        { camState with dev_exposure_range := none, dev_gain_range := none }.min_exposure ∧
      (cache_exposure_range
          { camState with dev_exposure_range := none, dev_gain_range := none }).max_exposure =
        { camState with dev_exposure_range := none, dev_gain_range := none }.max_exposure) ∧
    ({ camState with dev_exposure_range := none, dev_gain_range := none }.dev_gain_range
        = none →
      (cache_gain_range
          { camState with dev_exposure_range := none, dev_gain_range := none }).min_gain =
        { camState with dev_exposure_range := none, dev_gain_range := none }.min_gain ∧
      (cache_gain_range
          { camState with dev_exposure_range := none, dev_gain_range := none }).max_gain =
        { camState with dev_exposure_range := none, dev_gain_range := none }.max_gain) ∧
    (cache_exposure_range
        { camState with dev_exposure_range := none, dev_gain_range := none }).min_exposure ≤
      (cache_exposure_range
        { camState with dev_exposure_range := none, dev_gain_range := none }).max_exposure ∧
    (cache_gain_range
        { camState with dev_exposure_range := none, dev_gain_range := none }).min_gain ≤
      (cache_gain_range
        { camState with dev_exposure_range := none, dev_gain_range := none }).max_gain ∧
    (∀ d : Device,
      (initState d).min_exposure = 1000 ∧ (initState d).max_exposure = 100000 ∧
      (initState d).min_gain = 0 ∧ (initState d).max_gain = 47) :=
  range_cache_retention_and_defaults
    { camState with dev_exposure_range := none, dev_gain_range := none }
    (by decide) (by decide) (by decide) (by decide)

end Epicam
